import Mathlib

/-!
Shallow embedding of the OrionPlus motion-core fragment:
`Sources/App/Src/MachineCore.cpp` and `Sources/App/Src/gpio.cpp`
(the latter includes the `StepTicker` class declaration with its inline
bit-mask methods and the 2.62 fixed-point macros).

Machine integers are modelled as `Nat`/`Int` with explicit truncation
(`% 2^w`) where the C code stores into a fixed-width field; the C `float`
fields that the claims observe only as opaque values are modelled as `ℚ`.
-/

/-- One planned linear motion segment (Block in the data model: per-axis
step counts, direction bits and a precomputed trapezoidal profile). The
visible sources only pass Blocks around, so the fields follow the data
model; no claim inspects them. -/
structure Block where
  steps : Fin 3 → Nat
  direction_bits : Nat
  nominal_rate : ℚ
  entry_speed : ℚ
  exit_speed : ℚ
  accelerate_until : Nat
  decelerate_after : Nat

/-- Runtime state of the StepTicker, from the private section of the
class declaration in gpio.cpp (lines 210-231): frequency/period,
inversion masks, unstep and motor-enable bitmasks, the active block
reference and tick counter. `drivers_enabled` and `drivers_in_reset`
model the two hardware lines driven by `EnableStepperDrivers` /
`ResetStepperDrivers` (STEP_ENABLE and STEP_RESET pins configured in
Init_GPIO_Pins). -/
structure StepTickerState where
  frequency : ℚ
  period : Nat
  inversion_mask_bits_steps : Nat
  inversion_mask_bits_dirs : Nat
  unstep_bits : Nat
  motor_enable_bits : Nat
  current_block : Option Block
  current_tick : Nat
  running : Bool
  drivers_enabled : Bool
  drivers_in_reset : Bool

namespace StepTicker

/-- gpio.cpp line 198: `motor_enable_bits |= (1 << axis)`, stored back
into the `uint8_t` field (hence the truncation `% 256`). -/
def EnableMotor (axis : Nat) (s : StepTickerState) : StepTickerState :=
  { s with motor_enable_bits := (s.motor_enable_bits ||| (1 <<< axis)) % 256 }

/-- gpio.cpp line 199: `motor_enable_bits &= (~(1 << axis))`. The
complement is taken at `int` (32-bit) width, then the result is stored
into the `uint8_t` field. -/
def DisableMotor (axis : Nat) (s : StepTickerState) : StepTickerState :=
  { s with motor_enable_bits :=
      (s.motor_enable_bits &&& ((2 ^ 32 - 1) ^^^ ((1 <<< axis) % 2 ^ 32))) % 256 }

/-- gpio.cpp line 200: `motor_enable_bits = 0`. -/
def DisableAllMotors (s : StepTickerState) : StepTickerState :=
  { s with motor_enable_bits := 0 }

/-- gpio.cpp line 202: `return (motor_enable_bits != 0) ? true : false`. -/
def AreMotorsStillMoving (s : StepTickerState) : Bool :=
  if s.motor_enable_bits ≠ 0 then true else false

/-- gpio.cpp line 189: `float get_frequency() const { return frequency; }`.
A const method: returns the field and leaves the state unchanged, modelled
as a value-state pair. -/
def get_frequency (s : StepTickerState) : ℚ × StepTickerState :=
  (s.frequency, s)

/-- gpio.cpp line 192: `const Block *get_current_block() const { return
current_block; }`. A const method returning the active block reference. -/
def get_current_block (s : StepTickerState) : Option Block × StepTickerState :=
  (s.current_block, s)

/-- Modelled from the spec: the body of `StepTicker::EnableStepperDrivers`
is not among the visible sources (only its declaration, gpio.cpp line 206,
and its callers). Per the spec it is direct hardware-enable control of the
shared stepper-driver enable line, orthogonal to queued motion; it is
distinct from the per-axis `motor_enable_bits` helpers, which is why
`MachineCore::Halt` calls both it and `DisableAllMotors`. -/
def EnableStepperDrivers (enable : Bool) (s : StepTickerState) : StepTickerState :=
  { s with drivers_enabled := enable }

/-- Modelled from the spec: the body of `StepTicker::ResetStepperDrivers`
is not among the visible sources (declaration at gpio.cpp line 205). It
drives the STEP_RESET hardware line. -/
def ResetStepperDrivers (reset : Bool) (s : StepTickerState) : StepTickerState :=
  { s with drivers_in_reset := reset }

end StepTicker

/-- Two-complement value of a 64-bit signed integer holding the bits of
the mathematical integer `n` (C++ `int64_t` wrap-around semantics). -/
def toInt64 (n : Int) : Int :=
  (n + 2 ^ 63) % 2 ^ 64 - 2 ^ 63

/-- Left shift on `int64_t` (`x << k` on `long long`). -/
def int64_shl (x : Int) (k : Nat) : Int :=
  toInt64 (x * 2 ^ k)

/-- gpio.cpp line 177: `#define STEPTICKER_FPSCALE (1LL<<62)`. -/
def STEPTICKER_FPSCALE : Int :=
  int64_shl 1 62

/-- gpio.cpp line 178: `#define STEPTICKER_FROMFP(x) ((float)(x)/STEPTICKER_FPSCALE)`,
with the real-number semantics of the conversion modelled over `ℚ`. -/
def STEPTICKER_FROMFP (x : Int) : ℚ :=
  (x : ℚ) / (STEPTICKER_FPSCALE : ℚ)

/-- The Conveyor bounded FIFO of Blocks, observed through its queue
contents. -/
structure ConveyorState where
  queue : List Block

/-- Modelled from the spec: the body of `Conveyor::flush_queue` is not
among the visible sources (only its caller in `MachineCore::Halt`). Per
the spec it empties the queue immediately. -/
def Conveyor.flush_queue (s : ConveyorState) : ConveyorState :=
  { s with queue := [] }

/-- Spindle controller state; its operations are out of scope, so they
enter `MachineCore` operations as explicit function parameters acting on
this component only. -/
structure SpindleState where
  running : Bool

/-- Coolant controller state; same treatment as the spindle. -/
structure CoolantState where
  running : Bool

/-- MachineCore state, from the members assigned in the constructor
(MachineCore.cpp lines 16-69) plus the component objects and the static
debounce counters of `read_user_buttons_callback`. -/
structure MachineState where
  startup_finished : Bool
  system_halted : Bool
  feed_hold : Bool
  axes_homing_now : Nat
  axes_already_homed : Nat
  step_ticker : StepTickerState
  conveyor : ConveyorState
  spindle : SpindleState
  coolant : CoolantState
  input_events_group : Nat
  debounce0 : Nat
  debounce1 : Nat
  debounce2 : Nat

/-- FreeRTOS `pdFALSE`. -/
def pdFALSE : Nat := 0

/-- The two GPIO inputs read by `MachineCore::NotifyOfEvent`:
`true` models `GPIO_PIN_SET`. -/
structure PinState where
  global_fault_pin : Bool
  lim_x_pin : Bool

/-- The three active-low user buttons read by
`read_user_buttons_callback`; a `true` field models
`(port->IDR & pin) == 0`, i.e. the button is pressed. -/
structure ButtonPins where
  start_low : Bool
  hold_low : Bool
  abort_low : Bool

namespace MachineCore

/-- MachineCore.cpp lines 109-120: `Halt` sets the halted flag, stops the
spindle and coolant (out-of-scope components, passed as functions acting
on their own sub-state), de-energizes the stepper drivers, clears all
motor-enable bits and flushes the conveyor queue. -/
def Halt (spindleInmediateStop : SpindleState → SpindleState)
    (coolantStop : CoolantState → CoolantState)
    (s : MachineState) : MachineState :=
  let s1 := { s with system_halted := true }
  let s2 := { s1 with spindle := spindleInmediateStop s1.spindle }
  let s3 := { s2 with coolant := coolantStop s2.coolant }
  let s4 := { s3 with step_ticker := StepTicker.EnableStepperDrivers false s3.step_ticker }
  let s5 := { s4 with step_ticker := StepTicker.DisableAllMotors s4.step_ticker }
  { s5 with conveyor := Conveyor.flush_queue s5.conveyor }

/-- MachineCore.cpp lines 90-96: `OnIdle` returns immediately before
delayed startup has finished, otherwise calls `Conveyor::on_idle` (whose
body is not among the visible sources, so it is passed as a function on
the conveyor component). The boolean records whether `on_idle` was
invoked. -/
def OnIdle (conveyor_on_idle : ConveyorState → ConveyorState)
    (s : MachineState) : MachineState × Bool :=
  if s.startup_finished = false then (s, false)
  else ({ s with conveyor := conveyor_on_idle s.conveyor }, true)

/-- MachineCore.cpp lines 160-166: the stepper idle timer callback only
calls `EnableStepperDrivers(false)` on the step ticker. -/
def steppers_idle_timeout_callback (s : MachineState) : MachineState :=
  { s with step_ticker := StepTicker.EnableStepperDrivers false s.step_ticker }

/-- MachineCore.cpp lines 123-157: `NotifyOfEvent` checks interrupt-source
bits 6, 7 and 8 and reads the fault / limit pins, but every
`xEventGroupSetBitsFromISR` call in its branches is commented out, so each
branch leaves the state unchanged; it returns `pdFALSE`. -/
def NotifyOfEvent (it_evt_src : Nat) (pins : PinState)
    (s : MachineState) : Nat × MachineState :=
  let s1 :=
    if it_evt_src &&& (1 <<< 6) ≠ 0 then
      if pins.global_fault_pin ≠ true then s
      else if pins.lim_x_pin ≠ false then s
      else s
    else s
  let s2 := if it_evt_src &&& (1 <<< 7) ≠ 0 then s1 else s1
  let s3 := if it_evt_src &&& (1 <<< 8) ≠ 0 then s2 else s2
  (pdFALSE, s3)

/-- MachineCore.cpp lines 182-227: the periodic user-button callback.
Returns immediately before startup has finished; otherwise debounces each
pressed active-low button and, on the third consecutive sample, sets that
button event bit in the input event group. The event-bit constants are
defined outside the visible sources and are passed as parameters. -/
def read_user_buttons_callback (btnStartEvent btnHoldEvent btnAbortEvent : Nat)
    (pins : ButtonPins) (s : MachineState) : MachineState :=
  if s.startup_finished = false then s
  else
    let sA :=
      if pins.start_low then
        if s.debounce0 < 2 then { s with debounce0 := s.debounce0 + 1 }
        else { s with input_events_group := s.input_events_group ||| btnStartEvent,
                      debounce0 := 0 }
      else s
    let sB :=
      if pins.hold_low then
        if sA.debounce1 < 2 then { sA with debounce1 := sA.debounce1 + 1 }
        else { sA with input_events_group := sA.input_events_group ||| btnHoldEvent,
                       debounce1 := 0 }
      else sA
    if pins.abort_low then
      if sB.debounce2 < 2 then { sB with debounce2 := sB.debounce2 + 1 }
      else { sB with input_events_group := sB.input_events_group ||| btnAbortEvent,
                     debounce2 := 0 }
    else sB

end MachineCore

/-! ## Concrete states used by witnesses and counterexamples -/

/-- A concrete StepTicker state with motor 1 enabled and the driver line
energized. -/
def tickerW : StepTickerState :=
  { frequency := 0, period := 0, inversion_mask_bits_steps := 0,
    inversion_mask_bits_dirs := 0, unstep_bits := 0, motor_enable_bits := 2,
    current_block := none, current_tick := 0, running := false,
    drivers_enabled := true, drivers_in_reset := false }

/-- A concrete StepTicker state with motor 0 enabled and the driver line
energized. -/
def tickerC : StepTickerState :=
  { frequency := 0, period := 0, inversion_mask_bits_steps := 0,
    inversion_mask_bits_dirs := 0, unstep_bits := 0, motor_enable_bits := 1,
    current_block := none, current_tick := 0, running := false,
    drivers_enabled := true, drivers_in_reset := false }

/-- A concrete machine state in which delayed startup has not finished. -/
def machineW : MachineState :=
  { startup_finished := false, system_halted := false, feed_hold := false,
    axes_homing_now := 0, axes_already_homed := 0, step_ticker := tickerW,
    conveyor := { queue := [] }, spindle := { running := false },
    coolant := { running := false }, input_events_group := 0,
    debounce0 := 0, debounce1 := 0, debounce2 := 0 }

/-! ## Claims -/

/-- Claim C1: from any machine state, and whatever the active Block and
its progress are, Halt de-energizes the stepper drivers, clears every
motor-enable bit and flushes the Conveyor queue; there is no
partial-block rollback: the active block reference and the current tick
position are left exactly where they were. -/
theorem Halt_deenergizes_and_flushes (fsp : SpindleState → SpindleState)
    (fco : CoolantState → CoolantState) (s : MachineState) :
    (MachineCore.Halt fsp fco s).step_ticker.drivers_enabled = false ∧
    (MachineCore.Halt fsp fco s).step_ticker.motor_enable_bits = 0 ∧
    (MachineCore.Halt fsp fco s).conveyor.queue = [] ∧
    (MachineCore.Halt fsp fco s).step_ticker.current_block
      = s.step_ticker.current_block ∧
    (MachineCore.Halt fsp fco s).step_ticker.current_tick
      = s.step_ticker.current_tick :=
  ⟨rfl, rfl, rfl, rfl, rfl⟩

/-- Claim C2: Halt is idempotent on the observables the claim lists:
running it twice gives the same halted flag, motor-enable bits,
driver-enable line and queue contents as running it once. -/
theorem Halt_idempotent (fsp : SpindleState → SpindleState)
    (fco : CoolantState → CoolantState) (s : MachineState) :
    (MachineCore.Halt fsp fco (MachineCore.Halt fsp fco s)).system_halted
      = (MachineCore.Halt fsp fco s).system_halted ∧
    (MachineCore.Halt fsp fco (MachineCore.Halt fsp fco s)).step_ticker.motor_enable_bits
      = (MachineCore.Halt fsp fco s).step_ticker.motor_enable_bits ∧
    (MachineCore.Halt fsp fco (MachineCore.Halt fsp fco s)).step_ticker.drivers_enabled
      = (MachineCore.Halt fsp fco s).step_ticker.drivers_enabled ∧
    (MachineCore.Halt fsp fco (MachineCore.Halt fsp fco s)).conveyor.queue
      = (MachineCore.Halt fsp fco s).conveyor.queue :=
  ⟨rfl, rfl, rfl, rfl⟩

/-- Claim C3, counterexample: starting from a state with motor 0 enabled,
EnableStepperDrivers(false) de-energizes the drivers, yet
AreMotorsStillMoving still returns true, so the function does not reflect
the de-energized state of the axis drivers. -/
theorem AreMotorsStillMoving_after_driver_disable_ctrex :
    (StepTicker.EnableStepperDrivers false tickerC).drivers_enabled = false ∧
    StepTicker.AreMotorsStillMoving (StepTicker.EnableStepperDrivers false tickerC)
      = true :=
  ⟨rfl, rfl⟩

/-- Claim C3, amended: AreMotorsStillMoving returns true exactly when some
bit of motor_enable_bits is set; it observes only the per-axis
motor-enable mask, and EnableStepperDrivers(false) leaves that mask, and
hence the result of AreMotorsStillMoving, unchanged. -/
theorem AreMotorsStillMoving_iff_motor_enable_bits (s : StepTickerState) :
    (StepTicker.AreMotorsStillMoving s = true ↔ s.motor_enable_bits ≠ 0) ∧
    StepTicker.AreMotorsStillMoving (StepTicker.EnableStepperDrivers false s)
      = StepTicker.AreMotorsStillMoving s ∧
    (StepTicker.EnableStepperDrivers false s).motor_enable_bits
      = s.motor_enable_bits := by
  refine ⟨?_, rfl, rfl⟩
  by_cases h : s.motor_enable_bits = 0
  · simp [StepTicker.AreMotorsStillMoving, h]
  · simp [StepTicker.AreMotorsStillMoving, h]

/-- Claim C4: for every interrupt-source bitmask and every pin reading,
NotifyOfEvent returns pdFALSE and leaves the machine state untouched: all
its branches are observably empty. -/
theorem NotifyOfEvent_no_effect (it_evt_src : Nat) (pins : PinState)
    (s : MachineState) :
    MachineCore.NotifyOfEvent it_evt_src pins s = (pdFALSE, s) := by
  simp [MachineCore.NotifyOfEvent]

/-- Claim C5: the stepper idle timeout callback de-energizes the drivers
and changes nothing else: motor_enable_bits and the Conveyor queue are
untouched, and the whole state differs from the input only in the
driver-enable line. -/
theorem idle_timeout_only_disables_drivers (s : MachineState) :
    (MachineCore.steppers_idle_timeout_callback s).step_ticker.drivers_enabled
      = false ∧
    (MachineCore.steppers_idle_timeout_callback s).step_ticker.motor_enable_bits
      = s.step_ticker.motor_enable_bits ∧
    (MachineCore.steppers_idle_timeout_callback s).conveyor.queue
      = s.conveyor.queue ∧
    MachineCore.steppers_idle_timeout_callback s
      = { s with step_ticker := { s.step_ticker with drivers_enabled := false } } :=
  ⟨rfl, rfl, rfl, rfl⟩

/-- Claim C6: EnableStepperDrivers(false) is idempotent: applying it twice
yields exactly the state obtained by applying it once. -/
theorem EnableStepperDrivers_false_idempotent (s : StepTickerState) :
    StepTicker.EnableStepperDrivers false (StepTicker.EnableStepperDrivers false s)
      = StepTicker.EnableStepperDrivers false s :=
  rfl

/-- Claim C7: the 2.62 fixed-point scale constant, computed as a 64-bit
signed shift, equals exactly 2 to the 62, and the conversion back to a
real number divides by 2 to the 62. -/
theorem STEPTICKER_FPSCALE_eq_two_pow_62 :
    STEPTICKER_FPSCALE = 2 ^ 62 ∧
    ∀ x : Int, STEPTICKER_FROMFP x = (x : ℚ) / 2 ^ 62 := by
  have h : STEPTICKER_FPSCALE = 2 ^ 62 := by
    norm_num [STEPTICKER_FPSCALE, int64_shl, toInt64]
  refine ⟨h, fun x => ?_⟩
  rw [STEPTICKER_FROMFP, h]
  norm_num

/-- Claim C8: get_frequency and get_current_block are pure observers:
they return the configured tick frequency and the active block reference
respectively, and leave the StepTicker state exactly as it was. -/
theorem observers_pure (s : StepTickerState) :
    (StepTicker.get_frequency s).1 = s.frequency ∧
    (StepTicker.get_frequency s).2 = s ∧
    (StepTicker.get_current_block s).1 = s.current_block ∧
    (StepTicker.get_current_block s).2 = s :=
  ⟨rfl, rfl, rfl, rfl⟩

/-! ## Bit-level helper lemmas for the motor-enable mask -/

/-- Bit i of the motor-enable mask after EnableMotor, for i inside the
8-bit field. -/
theorem enableMotor_testBit8 (a i : Nat) (hi : i < 8) (s : StepTickerState) :
    (StepTicker.EnableMotor a s).motor_enable_bits.testBit i
      = (s.motor_enable_bits.testBit i || (2 ^ a).testBit i) := by
  show ((s.motor_enable_bits ||| (1 <<< a)) % 256).testBit i = _
  rw [Nat.one_shiftLeft, show (256 : Nat) = 2 ^ 8 by norm_num,
    Nat.testBit_mod_two_pow, Nat.testBit_or]
  simp [hi]

/-- Bit i of the motor-enable mask after EnableMotor vanishes outside the
8-bit field. -/
theorem enableMotor_testBit_high (a i : Nat) (hi : 8 ≤ i) (s : StepTickerState) :
    (StepTicker.EnableMotor a s).motor_enable_bits.testBit i = false := by
  show ((s.motor_enable_bits ||| (1 <<< a)) % 256).testBit i = _
  rw [show (256 : Nat) = 2 ^ 8 by norm_num, Nat.testBit_mod_two_pow]
  simp [Nat.not_lt.2 hi]

/-- Bit i of the motor-enable mask after DisableMotor, for an axis and a
bit index inside the 8-bit field. -/
theorem disableMotor_testBit8 (a i : Nat) (ha : a < 8) (hi : i < 8)
    (s : StepTickerState) :
    (StepTicker.DisableMotor a s).motor_enable_bits.testBit i
      = (s.motor_enable_bits.testBit i && !((2 ^ a).testBit i)) := by
  have hmod32 : ((1 <<< a) % 2 ^ 32) = 2 ^ a := by
    rw [Nat.one_shiftLeft]
    exact Nat.mod_eq_of_lt (Nat.pow_lt_pow_right (by norm_num) (by omega))
  show ((s.motor_enable_bits &&& ((2 ^ 32 - 1) ^^^ ((1 <<< a) % 2 ^ 32))) % 256).testBit i
      = _
  rw [hmod32, show (256 : Nat) = 2 ^ 8 by norm_num, Nat.testBit_mod_two_pow,
    Nat.testBit_and, Nat.testBit_xor, Nat.testBit_two_pow_sub_one]
  simp [hi, (by omega : i < 32)]

/-- Bit i of the motor-enable mask after DisableMotor vanishes outside the
8-bit field. -/
theorem disableMotor_testBit_high (a i : Nat) (hi : 8 ≤ i) (s : StepTickerState) :
    (StepTicker.DisableMotor a s).motor_enable_bits.testBit i = false := by
  show ((s.motor_enable_bits &&& ((2 ^ 32 - 1) ^^^ ((1 <<< a) % 2 ^ 32))) % 256).testBit i
      = _
  rw [show (256 : Nat) = 2 ^ 8 by norm_num, Nat.testBit_mod_two_pow]
  simp [Nat.not_lt.2 hi]

/-- Claim C9: for any axis a below 8 and any other bit b of the 8-bit
motor-enable mask, EnableMotor sets bit a and leaves bit b unchanged,
DisableMotor clears bit a and leaves bit b unchanged, and DisableMotor
after EnableMotor restores any state whose bit a was already clear. -/
theorem EnableMotor_DisableMotor_bits (a b : Nat) (s : StepTickerState)
    (ha : a < 8) (hb : b < 8) (hne : b ≠ a)
    (hlt : s.motor_enable_bits < 256) :
    (StepTicker.EnableMotor a s).motor_enable_bits.testBit a = true ∧
    (StepTicker.EnableMotor a s).motor_enable_bits.testBit b
      = s.motor_enable_bits.testBit b ∧
    (StepTicker.DisableMotor a s).motor_enable_bits.testBit a = false ∧
    (StepTicker.DisableMotor a s).motor_enable_bits.testBit b
      = s.motor_enable_bits.testBit b ∧
    (s.motor_enable_bits.testBit a = false →
      StepTicker.DisableMotor a (StepTicker.EnableMotor a s) = s) := by
  refine ⟨?_, ?_, ?_, ?_, ?_⟩
  · rw [enableMotor_testBit8 a a ha]
    simp [Nat.testBit_two_pow_self]
  · rw [enableMotor_testBit8 a b hb]
    simp [Nat.testBit_two_pow_of_ne (Ne.symm hne)]
  · rw [disableMotor_testBit8 a a ha ha]
    simp [Nat.testBit_two_pow_self]
  · rw [disableMotor_testBit8 a b ha hb]
    simp [Nat.testBit_two_pow_of_ne (Ne.symm hne)]
  · intro hclear
    have hX : (StepTicker.DisableMotor a (StepTicker.EnableMotor a s)).motor_enable_bits
        = s.motor_enable_bits := by
      apply Nat.eq_of_testBit_eq
      intro i
      rcases Nat.lt_or_ge i 8 with hi | hi
      · rw [disableMotor_testBit8 a i ha hi, enableMotor_testBit8 a i hi]
        rcases eq_or_ne i a with rfl | hia
        · simp [Nat.testBit_two_pow_self, hclear]
        · simp [Nat.testBit_two_pow_of_ne (Ne.symm hia)]
      · rw [disableMotor_testBit_high a i hi]
        exact (Nat.testBit_eq_false_of_lt
          (lt_of_lt_of_le hlt (by
            calc (256 : Nat) = 2 ^ 8 := by norm_num
            _ ≤ 2 ^ i := Nat.pow_le_pow_right (by norm_num) hi))).symm
    have hform : StepTicker.DisableMotor a (StepTicker.EnableMotor a s)
        = { s with motor_enable_bits :=
              (StepTicker.DisableMotor a (StepTicker.EnableMotor a s)).motor_enable_bits } :=
      rfl
    rw [hform, hX]

/-- Claim C9, witness at axis 0, other bit 1, starting mask 2. -/
theorem EnableMotor_DisableMotor_bits_witness :
    (0 : Nat) < 8 ∧ (1 : Nat) < 8 ∧ (1 : Nat) ≠ 0 ∧
    tickerW.motor_enable_bits < 256 ∧
    ((StepTicker.EnableMotor 0 tickerW).motor_enable_bits.testBit 0 = true ∧
     (StepTicker.EnableMotor 0 tickerW).motor_enable_bits.testBit 1
       = tickerW.motor_enable_bits.testBit 1 ∧
     (StepTicker.DisableMotor 0 tickerW).motor_enable_bits.testBit 0 = false ∧
     (StepTicker.DisableMotor 0 tickerW).motor_enable_bits.testBit 1
       = tickerW.motor_enable_bits.testBit 1 ∧
     (tickerW.motor_enable_bits.testBit 0 = false →
       StepTicker.DisableMotor 0 (StepTicker.EnableMotor 0 tickerW) = tickerW)) :=
  ⟨by decide, by decide, by decide, by decide,
   EnableMotor_DisableMotor_bits 0 1 tickerW (by decide) (by decide)
     (by decide) (by decide)⟩

/-- Claim C10: while delayed startup has not finished, OnIdle returns
without invoking the Conveyor on_idle hook, and the periodic user-button
callback returns without touching anything: neither call has an observable
effect. -/
theorem before_startup_no_effect (f : ConveyorState → ConveyorState)
    (e1 e2 e3 : Nat) (pins : ButtonPins) (s : MachineState)
    (h : s.startup_finished = false) :
    MachineCore.OnIdle f s = (s, false) ∧
    MachineCore.read_user_buttons_callback e1 e2 e3 pins s = s := by
  constructor
  · simp [MachineCore.OnIdle, h]
  · simp [MachineCore.read_user_buttons_callback, h]

/-- Claim C10, witness on a concrete machine state with startup pending,
all three buttons pressed and arbitrary event bits. -/
theorem before_startup_no_effect_witness :
    machineW.startup_finished = false ∧
    (MachineCore.OnIdle (fun c => c) machineW = (machineW, false) ∧
     MachineCore.read_user_buttons_callback 1 2 4
       { start_low := true, hold_low := true, abort_low := true } machineW
       = machineW) :=
  ⟨rfl, before_startup_no_effect (fun c => c) 1 2 4
    { start_low := true, hold_low := true, abort_low := true } machineW rfl⟩
